import Mathlib

/-!
Shallow embedding of `src/include/gll/gll.hpp` (the GLL loader library).

Modelling conventions:
* C++ `float` streams are modelled by `GFloat`: the code never performs
  arithmetic on the floats it stores — it only copies source components,
  pushes the literal `0`, or pushes the bit pattern of the `int` `-1`
  reinterpreted as a float through a union.  `GFloat.val q` is an ordinary
  float value (source components, the literal 0), `GFloat.punned i` is a
  float holding the bit pattern of the integer `i`.
* `std::vector<T>::push_back` loops become `List.foldl` with `++ [x]`
  (or `++ chunk` for a run of pushes).
* `std::set<model::attribute>` iterates in increasing enum order; a set of
  attributes is therefore represented by its characteristic predicate and
  iterated as `attrOrder.filter`.
* The assimp collaborators (`Assimp::Importer::ReadFile`, `stbi_load`) are
  external; their results are inputs of the embedded functions
  (`Option aiScene`, `Option stbi_data`).
* The bone-merge block of `process_assimp_mesh` (source lines 295-372) is
  commented out in the source; the embedded `process_assimp_mesh`
  accordingly never touches the model's `bones` map, exactly like the
  compiled code.
-/

/-- Carrier for the C++ `float` values stored in vertex streams.  No
arithmetic is ever performed on them by the source, so copied values and
the two literal constants are represented symbolically. -/
inductive GFloat where
  | val : ℚ → GFloat
  | punned : ℤ → GFloat
deriving DecidableEq

/-- Embeds `gll::model::attribute` (enum, values 0..5). -/
inductive Attrib where
  | position
  | normal
  | texcoord
  | tangents_bitangents
  | bones_indices
  | bones_weights
deriving DecidableEq

/-- The numeric value of each enumerator, as declared in the source. -/
def Attrib.idx : Attrib → Nat
  | .position => 0
  | .normal => 1
  | .texcoord => 2
  | .tangents_bitangents => 3
  | .bones_indices => 4
  | .bones_weights => 5

/-- The attributes in increasing enum order: the iteration order of a
`std::set<model::attribute>`. -/
def attrOrder : List Attrib :=
  [.position, .normal, .texcoord, .tangents_bitangents, .bones_indices, .bones_weights]

/-- Embeds `aiVector3D`: one source vertex component triple. -/
structure aiVector3D where
  x : ℚ
  y : ℚ
  z : ℚ

/-- Embeds `aiFace`: `mIndices` is the face-local index list. -/
structure aiFace where
  mIndices : List Nat

/-- Embeds `aiVertexWeight`: one (vertex id, weight) pair of a bone. -/
structure aiVertexWeight where
  mVertexId : Nat
  mWeight : ℚ

/-- Embeds `aiBone`: name, offset matrix (16 floats) and weight pairs. -/
structure aiBone where
  mName : String
  mOffsetMatrix : List ℚ
  mWeights : List aiVertexWeight

/-- Embeds `aiMesh`, restricted to the fields the source reads.  The boolean
fields model the results of the accessors the code branches on
(`HasPositions()`, `HasNormals()`, `HasTextureCoords(0)`,
`HasTangentsAndBitangents()`, `HasBones()`); the per-vertex arrays are
total functions from the vertex id. -/
structure aiMesh where
  mNumVertices : Nat
  hasPositions : Bool
  mVertices : Nat → aiVector3D
  hasNormals : Bool
  mNormals : Nat → aiVector3D
  hasTextureCoords0 : Bool
  mTextureCoords0 : Nat → aiVector3D
  hasTangentsAndBitangents : Bool
  mTangents : Nat → aiVector3D
  mBitangents : Nat → aiVector3D
  mFaces : List aiFace
  mMaterialIndex : Nat
  hasBones : Bool
  mBones : List aiBone

instance : Inhabited aiVector3D := ⟨⟨0, 0, 0⟩⟩

instance : Inhabited aiMesh :=
  ⟨⟨0, false, fun _ => default, false, fun _ => default, false, fun _ => default,
    false, fun _ => default, fun _ => default, [], 0, false, []⟩⟩

/-- Embeds `aiNode`: mesh index list plus children. -/
inductive aiNode where
  | mk : List Nat → List aiNode → aiNode

/-- Accessor for `aiNode::mMeshes`. -/
def aiNode.mMeshes : aiNode → List Nat
  | .mk ms _ => ms

/-- Accessor for `aiNode::mChildren`. -/
def aiNode.mChildren : aiNode → List aiNode
  | .mk _ cs => cs

/-- Embeds `AI_SCENE_FLAGS_INCOMPLETE` (assimp, bit 0). -/
def AI_SCENE_FLAGS_INCOMPLETE : Nat := 1

/-- Embeds `aiScene`, restricted to the fields the source reads.  `mRootNode` is
an `Option` because the source checks it for null. -/
structure aiScene where
  mFlags : Nat
  mRootNode : Option aiNode
  mMeshes : List aiMesh

/-- Embeds `gll::model::bone_info`. -/
structure bone_info where
  id : Int
  offset_matrix_row_0 : List ℚ
  offset_matrix_row_1 : List ℚ
  offset_matrix_row_2 : List ℚ
  offset_matrix_row_3 : List ℚ
deriving DecidableEq

/-- Embeds `gll::model::mesh`.  The field `attributes` is the `std::set<attribute>` stored
as its sorted iteration order; `vertices` is the
`std::list<std::vector<float>>` of streams. -/
structure mesh where
  attributes : List Attrib
  vertices : List (List GFloat)
  indicies : List Nat
  material_id : Nat
deriving DecidableEq

/-- Embeds `gll::model`.  The field `bones` is the `std::map<std::string, bone_info>` as an
association list. -/
structure model where
  bones : List (String × bone_info)
  meshes : List mesh
deriving DecidableEq

/-- The default-constructed (empty) `gll::model`, the payload returned
on import failure. -/
def emptyModel : model := ⟨[], []⟩

/-- Embeds `gll::model_load_settings`. -/
structure model_load_settings where
  interleave_attributes : Bool := true
  max_influencial_bones : Int := 4
  force_attributes : List Attrib := []

/-- Embeds `gll::image`.  The field `pixel_data` holds the decoded byte buffer when the
pointer is non-null. -/
structure image where
  width : Nat
  height : Nat
  color_channels : Nat
  pixel_data : Option (List Nat)
  pixel_data_size : Nat
deriving DecidableEq

/-- The default-constructed (empty) `gll::image`, the payload returned on
decode failure. -/
def emptyImage : image := ⟨0, 0, 0, none, 0⟩

/-- Embeds `gll::image_load_settings`. -/
structure image_load_settings where
  flip_vertically : Bool := true

/-- A successful result of the external decoder `stbi_load`: dimensions,
channel count and the decoded byte buffer (one byte per channel). -/
structure stbi_data where
  width : Nat
  height : Nat
  channels : Nat
  data : List Nat

/-- Embeds `gll::load_image` (source lines 92-118), with the external decoder
call replaced by its result: `none` models `stbi_load` returning null.
`color_channels` is a `uint8_t` in the source, hence the `% 256`;
`pixel_data_size` is computed from the stored struct fields, with
`sizeof(float) = 4`. -/
def load_image (decoded : Option stbi_data) : Bool × image :=
  match decoded with
  | none => (false, emptyImage)
  | some d =>
    let w : Nat := d.width
    let h : Nat := d.height
    let c : Nat := d.channels % 256
    (true, { width := w, height := h, color_channels := c,
             pixel_data := some d.data,
             pixel_data_size := w * h * c * 4 })

/-- The number of zeros pushed by the `_process_assimp_vertex_attrib_push_zeros`
label (source lines 183-192). -/
def push_zeros_count : Attrib → Nat
  | .texcoord => 2
  | .tangents_bitangents => 6
  | _ => 3

/-- Embeds `process_assimp_vertex_attrib` (source lines 129-193), as the chunk of
floats it pushes onto its target vector for one vertex and one attribute.
A `for (int i = 0; i < settings.max_influencial_bones; i++)` loop runs
`max_influencial_bones.toNat` times.  The union type-pun of `int -1` into
a float is `GFloat.punned (-1)`. -/
def process_assimp_vertex_attrib (settings : model_load_settings)
    (am : aiMesh) (vertex_id : Nat) (attrib : Attrib) : List GFloat :=
  match attrib with
  | .position =>
    if am.hasPositions then
      [GFloat.val (am.mVertices vertex_id).x,
       GFloat.val (am.mVertices vertex_id).z,
       GFloat.val (am.mVertices vertex_id).y]
    else List.replicate (push_zeros_count .position) (GFloat.val 0)
  | .normal =>
    if am.hasNormals then
      [GFloat.val (am.mNormals vertex_id).x,
       GFloat.val (am.mNormals vertex_id).z,
       GFloat.val (am.mNormals vertex_id).y]
    else List.replicate (push_zeros_count .normal) (GFloat.val 0)
  | .texcoord =>
    if am.hasTextureCoords0 then
      [GFloat.val (am.mTextureCoords0 vertex_id).x,
       GFloat.val (am.mTextureCoords0 vertex_id).y]
    else List.replicate (push_zeros_count .texcoord) (GFloat.val 0)
  | .tangents_bitangents =>
    if am.hasTangentsAndBitangents then
      [GFloat.val (am.mTangents vertex_id).x,
       GFloat.val (am.mTangents vertex_id).z,
       GFloat.val (am.mTangents vertex_id).y,
       GFloat.val (am.mBitangents vertex_id).x,
       GFloat.val (am.mBitangents vertex_id).z,
       GFloat.val (am.mBitangents vertex_id).y]
    else List.replicate (push_zeros_count .tangents_bitangents) (GFloat.val 0)
  | .bones_indices =>
    List.replicate settings.max_influencial_bones.toNat (GFloat.punned (-1))
  | .bones_weights =>
    List.replicate settings.max_influencial_bones.toNat (GFloat.val 0)

/-- The attribute detection of `process_assimp_mesh` (source lines 218-226):
which attributes the source mesh physically has. -/
def detected_attribs (am : aiMesh) : Attrib → Bool
  | .position => am.hasPositions
  | .normal => am.hasNormals
  | .texcoord => am.hasTextureCoords0
  | .tangents_bitangents => am.hasTangentsAndBitangents
  | .bones_indices => am.hasBones
  | .bones_weights => am.hasBones

/-- The resolved attribute set `model_attribs` of `process_assimp_mesh`
(source lines 218-231): detected attributes plus the caller's
`force_attributes`, iterated in enum order (a `std::set`). -/
def model_attribs (settings : model_load_settings) (am : aiMesh) : List Attrib :=
  attrOrder.filter
    (fun a => detected_attribs am a || decide (a ∈ settings.force_attributes))

/-- The `elements_per_attrib` lambda of `process_assimp_mesh` (source
lines 238-249); returns `int` in the source. -/
def elements_per_attrib (settings : model_load_settings) : Attrib → Int
  | .position => 3
  | .normal => 3
  | .texcoord => 2
  | .tangents_bitangents => 6
  | .bones_indices => settings.max_influencial_bones
  | .bones_weights => settings.max_influencial_bones

/-- The vertex loop of `process_assimp_mesh` (source lines 280-293) in
interleaved mode: every attribute's save target is the single stream, so
each chunk is appended to it in turn. -/
def emit_interleaved (settings : model_load_settings) (am : aiMesh)
    (attrs : List Attrib) : List GFloat :=
  (List.range am.mNumVertices).foldl
    (fun stream v =>
      attrs.foldl
        (fun stream a => stream ++ process_assimp_vertex_attrib settings am v a)
        stream)
    []

/-- The vertex loop of `process_assimp_mesh` (source lines 280-293) in
non-interleaved mode: `attribs_save_targets_map` maps each attribute to
its own stream; each chunk is appended to its attribute's stream. -/
def emit_separate (settings : model_load_settings) (am : aiMesh)
    (attrs : List Attrib) : Attrib → List GFloat :=
  (List.range am.mNumVertices).foldl
    (fun streams v =>
      attrs.foldl
        (fun streams a => fun b =>
          if b = a then streams b ++ process_assimp_vertex_attrib settings am v a
          else streams b)
        streams)
    (fun _ => [])

/-- The index loop of `process_assimp_mesh` (source lines 209-214): for
each face, push each face-local index. -/
def load_indicies (am : aiMesh) : List Nat :=
  am.mFaces.foldl
    (fun acc face => face.mIndices.foldl (fun acc2 i => acc2 ++ [i]) acc)
    []

/-- Embeds `process_assimp_mesh` (source lines 195-373), as the `model::mesh` it
appends to `output.meshes`.  In interleaved mode one stream is pushed
unconditionally (source line 253) and receives every chunk; otherwise one
stream is pushed per attribute, in set iteration order.  The bone-merge
block (source lines 295-372) is commented out in the source, so the
function reads no bone data and the model's `bones` map is untouched. -/
def process_assimp_mesh (settings : model_load_settings) (am : aiMesh) : mesh :=
  let attrs := model_attribs settings am
  { attributes := attrs
    vertices :=
      if settings.interleave_attributes then
        [emit_interleaved settings am attrs]
      else
        attrs.map (emit_separate settings am attrs)
    indicies := load_indicies am
    material_id := am.mMaterialIndex }

mutual

/-- Embeds `process_assimp_node` (source lines 375-390): process this node's
meshes in order, then recurse into the children in order.  Appending the
processed mesh is the `output.meshes.push_back` of `process_assimp_mesh`;
`output.bones` is never written (the bone-merge block is commented out). -/
def process_assimp_node (settings : model_load_settings) (scene : aiScene) :
    aiNode → model → model
  | .mk ms children, output =>
    let output := ms.foldl
      (fun out i =>
        { out with
          meshes := out.meshes ++ [process_assimp_mesh settings (scene.mMeshes.getD i default)] })
      output
    process_assimp_children settings scene children output

/-- The child loop of `process_assimp_node` (source lines 388-389). -/
def process_assimp_children (settings : model_load_settings) (scene : aiScene) :
    List aiNode → model → model
  | [], output => output
  | c :: cs, output =>
    process_assimp_children settings scene cs
      (process_assimp_node settings scene c output)

end

/-- Embeds `gll::load_model` (source lines 392-404), with the external importer
call replaced by its result: `none` models `ReadFile` returning null.
Failure when the scene is null, flagged incomplete, or has no root node;
otherwise the root node is processed into a fresh model. -/
def load_model (imported : Option aiScene) (settings : model_load_settings) :
    Bool × model :=
  match imported with
  | none => (false, emptyModel)
  | some scene =>
    if scene.mFlags &&& AI_SCENE_FLAGS_INCOMPLETE ≠ 0 then (false, emptyModel)
    else
      match scene.mRootNode with
      | none => (false, emptyModel)
      | some root => (true, process_assimp_node settings scene root emptyModel)

/-- The content of one attribute's stream after the vertex loop, in
closed form: the concatenation over all vertices of that attribute's
chunk. -/
def attrib_stream (settings : model_load_settings) (am : aiMesh)
    (a : Attrib) : List GFloat :=
  ((List.range am.mNumVertices).map
    (fun v => process_assimp_vertex_attrib settings am v a)).join

/-- A `push_back` loop is concatenation: folding `++ f x` over a list
appends the join of the mapped list. -/
theorem foldl_append_join {α β : Type} (f : α → List β) :
    ∀ (l : List α) (init : List β),
      l.foldl (fun s x => s ++ f x) init = init ++ (l.map f).join := by
  intro l
  induction l with
  | nil => intro init; simp
  | cons x xs ih =>
    intro init
    simp only [List.foldl_cons, List.map_cons, List.join]
    rw [ih]
    simp

/-- The interleaved vertex loop yields, in closed form, the concatenation
over vertices of the concatenation over attributes of the chunks. -/
theorem emit_interleaved_eq (settings : model_load_settings) (am : aiMesh)
    (attrs : List Attrib) :
    emit_interleaved settings am attrs =
      ((List.range am.mNumVertices).map
        (fun v => (attrs.map
          (fun a => process_assimp_vertex_attrib settings am v a)).join)).join := by
  unfold emit_interleaved
  have inner : ∀ (v : Nat) (stream : List GFloat),
      attrs.foldl
        (fun stream a => stream ++ process_assimp_vertex_attrib settings am v a)
        stream
      = stream ++ (attrs.map (fun a => process_assimp_vertex_attrib settings am v a)).join := by
    intro v stream
    exact foldl_append_join _ attrs stream
  calc (List.range am.mNumVertices).foldl
        (fun stream v => attrs.foldl
          (fun stream a => stream ++ process_assimp_vertex_attrib settings am v a) stream)
        []
      = (List.range am.mNumVertices).foldl
        (fun stream v =>
          stream ++ (attrs.map (fun a => process_assimp_vertex_attrib settings am v a)).join)
        [] := by
        congr 1
        funext stream v
        exact inner v stream
    _ = [] ++ ((List.range am.mNumVertices).map
          (fun v => (attrs.map (fun a => process_assimp_vertex_attrib settings am v a)).join)).join := by
        exact foldl_append_join _ _ []
    _ = _ := by simp

/-- One pass of the inner attribute loop of the non-interleaved vertex
loop: a duplicate-free attribute list appends exactly one chunk to each
member's stream and leaves every other stream unchanged. -/
theorem emit_separate_inner (settings : model_load_settings) (am : aiMesh)
    (v : Nat) :
    ∀ (attrs : List Attrib), attrs.Nodup → ∀ (streams : Attrib → List GFloat) (b : Attrib),
      (attrs.foldl
        (fun streams a => fun c =>
          if c = a then streams c ++ process_assimp_vertex_attrib settings am v a
          else streams c)
        streams) b
      = if b ∈ attrs then streams b ++ process_assimp_vertex_attrib settings am v b
        else streams b := by
  intro attrs
  induction attrs with
  | nil => intro _ streams b; simp
  | cons a as ih =>
    intro hnd streams b
    have hnd2 := List.nodup_cons.mp hnd
    simp only [List.foldl_cons]
    rw [ih hnd2.2]
    by_cases hb : b = a
    · subst hb
      simp only [if_pos rfl]
      rw [if_neg hnd2.1, if_pos (List.mem_cons_self b as)]
      simp
    · simp only [if_neg hb]
      by_cases hbs : b ∈ as
      · rw [if_pos hbs, if_pos (List.mem_cons_of_mem a hbs)]
      · rw [if_neg hbs, if_neg (by simp [hb, hbs])]

/-- The non-interleaved vertex loop yields, per attribute in the set, the
closed-form stream `attrib_stream`, and the empty stream for attributes
outside the set. -/
theorem emit_separate_eq (settings : model_load_settings) (am : aiMesh)
    (attrs : List Attrib) (hnd : attrs.Nodup) (b : Attrib) :
    emit_separate settings am attrs b
      = if b ∈ attrs then attrib_stream settings am b else [] := by
  unfold emit_separate attrib_stream
  have main : ∀ (vs : List Nat) (streams : Attrib → List GFloat),
      (vs.foldl
        (fun streams v =>
          attrs.foldl
            (fun streams a => fun c =>
              if c = a then streams c ++ process_assimp_vertex_attrib settings am v a
              else streams c)
            streams)
        streams) b
      = if b ∈ attrs then
          streams b ++ (vs.map (fun v => process_assimp_vertex_attrib settings am v b)).join
        else streams b := by
    intro vs
    induction vs with
    | nil => intro streams; by_cases hb : b ∈ attrs <;> simp [hb]
    | cons v rest ih =>
      intro streams
      simp only [List.foldl_cons]
      rw [ih]
      by_cases hb : b ∈ attrs
      · simp only [if_pos hb]
        rw [emit_separate_inner settings am v attrs hnd streams b, if_pos hb]
        simp
      · simp only [if_neg hb]
        rw [emit_separate_inner settings am v attrs hnd streams b, if_neg hb]
  rw [main]
  by_cases hb : b ∈ attrs <;> simp [hb]

/-- The resolved attribute list is duplicate-free (it is a filter of the
enum order). -/
theorem model_attribs_nodup (settings : model_load_settings) (am : aiMesh) :
    (model_attribs settings am).Nodup := by
  apply List.Nodup.filter
  decide

/-- Membership in the resolved attribute list is detection or forcing. -/
theorem mem_model_attribs (settings : model_load_settings) (am : aiMesh)
    (a : Attrib) :
    a ∈ model_attribs settings am ↔
      (detected_attribs am a = true ∨ a ∈ settings.force_attributes) := by
  unfold model_attribs
  rw [List.mem_filter]
  have hall : a ∈ attrOrder := by cases a <;> decide
  simp [hall]

/-- The index loop in closed form: the concatenation of the faces' index
lists, in face order and face-local order. -/
theorem load_indicies_eq (am : aiMesh) :
    load_indicies am = (am.mFaces.map aiFace.mIndices).join := by
  unfold load_indicies
  have inner : ∀ (face : aiFace) (acc : List Nat),
      face.mIndices.foldl (fun acc2 i => acc2 ++ [i]) acc = acc ++ face.mIndices := by
    intro face acc
    rw [foldl_append_join (fun i => [i]) face.mIndices acc]
    congr 1
    induction face.mIndices with
    | nil => rfl
    | cons i rest ih => simp [ih]
  calc am.mFaces.foldl
        (fun acc face => face.mIndices.foldl (fun acc2 i => acc2 ++ [i]) acc) []
      = am.mFaces.foldl (fun acc face => acc ++ face.mIndices) [] := by
        congr 1
        funext acc face
        exact inner face acc
    _ = [] ++ (am.mFaces.map aiFace.mIndices).join := foldl_append_join _ _ []
    _ = _ := by simp

/-- Each chunk pushed by `process_assimp_vertex_attrib` has exactly the
attribute's element count (clamped to zero for a negative bone budget,
since the push loop then runs zero times). -/
theorem chunk_length (settings : model_load_settings) (am : aiMesh)
    (v : Nat) (a : Attrib) :
    (process_assimp_vertex_attrib settings am v a).length
      = (elements_per_attrib settings a).toNat := by
  cases a <;>
    simp only [process_assimp_vertex_attrib, elements_per_attrib, push_zeros_count] <;>
    first
      | (split <;> simp)
      | simp

/-- Summing a map whose values are all `c` gives `length * c`. -/
theorem sum_map_all_eq {α : Type} (l : List α) (f : α → Nat) (c : Nat)
    (h : ∀ x ∈ l, f x = c) : (l.map f).sum = l.length * c := by
  induction l with
  | nil => simp
  | cons x xs ih =>
    simp only [List.map_cons, List.sum_cons, List.length_cons]
    rw [h x (List.mem_cons_self x xs),
      ih (fun y hy => h y (List.mem_cons_of_mem x hy))]
    ring

/-- Joining a map whose values are all the same list is one big replicate
of that many copies. -/
theorem join_map_const_replicate {α β : Type} (l : List α) (m : Nat) (x : β) :
    (l.map (fun _ => List.replicate m x)).join = List.replicate (l.length * m) x := by
  induction l with
  | nil => simp
  | cons a as ih =>
    calc ((a :: as).map (fun _ => List.replicate m x)).join
        = List.replicate m x ++ (as.map (fun _ => List.replicate m x)).join := rfl
      _ = List.replicate m x ++ List.replicate (as.length * m) x := by rw [ih]
      _ = List.replicate (m + as.length * m) x := (List.replicate_add m (as.length * m) x).symm
      _ = List.replicate ((a :: as).length * m) x := by
            rw [show (a :: as).length * m = m + as.length * m by simp; ring]

/-- The length of each attribute's closed-form stream. -/
theorem attrib_stream_length (settings : model_load_settings) (am : aiMesh)
    (a : Attrib) :
    (attrib_stream settings am a).length
      = am.mNumVertices * (elements_per_attrib settings a).toNat := by
  unfold attrib_stream
  rw [List.length_join, List.map_map]
  have hs := sum_map_all_eq (List.range am.mNumVertices)
    (List.length ∘ fun v => process_assimp_vertex_attrib settings am v a)
    ((elements_per_attrib settings a).toNat)
    (fun v _ => chunk_length settings am v a)
  rw [hs]
  simp

/-- The length of the interleaved stream: vertex count times the sum of
the member attributes' element counts. -/
theorem emit_interleaved_length (settings : model_load_settings) (am : aiMesh)
    (attrs : List Attrib) :
    (emit_interleaved settings am attrs).length
      = am.mNumVertices *
          (attrs.map (fun a => (elements_per_attrib settings a).toNat)).sum := by
  rw [emit_interleaved_eq, List.length_join, List.map_map]
  have hv : ∀ v ∈ List.range am.mNumVertices,
      (List.length ∘ fun v =>
        (attrs.map (fun a => process_assimp_vertex_attrib settings am v a)).join) v
      = (attrs.map (fun a => (elements_per_attrib settings a).toNat)).sum := by
    intro v _
    show ((attrs.map (fun a => process_assimp_vertex_attrib settings am v a)).join).length = _
    rw [List.length_join, List.map_map]
    congr 1
    apply List.map_congr_left
    intro a _
    exact chunk_length settings am v a
  rw [sum_map_all_eq _ _ _ hv]
  simp

/-- Claim C7: for every mesh, the output index container is exactly the
concatenation of the source faces' index lists, in face order and
face-local index order, with no reindexing and no deduplication. -/
theorem C7_index_concatenation (settings : model_load_settings) (am : aiMesh) :
    (process_assimp_mesh settings am).indicies = (am.mFaces.map aiFace.mIndices).join := by
  show load_indicies am = _
  exact load_indicies_eq am

/-- Claim C5: positions, normals, tangents and bitangents are emitted
with source components reordered (x, y, z) ↦ (x, z, y); texcoords are
emitted unswapped in source order (u, v); the only remaining attributes,
the two bone chunks, are constant fills carrying no source components at
all, so the axis swap applies to no other attribute. -/
theorem C5_axis_swap (settings : model_load_settings) (am : aiMesh) (v : Nat) :
    (am.hasPositions = true →
      process_assimp_vertex_attrib settings am v .position
        = [GFloat.val (am.mVertices v).x, GFloat.val (am.mVertices v).z,
           GFloat.val (am.mVertices v).y])
    ∧ (am.hasNormals = true →
      process_assimp_vertex_attrib settings am v .normal
        = [GFloat.val (am.mNormals v).x, GFloat.val (am.mNormals v).z,
           GFloat.val (am.mNormals v).y])
    ∧ (am.hasTangentsAndBitangents = true →
      process_assimp_vertex_attrib settings am v .tangents_bitangents
        = [GFloat.val (am.mTangents v).x, GFloat.val (am.mTangents v).z,
           GFloat.val (am.mTangents v).y, GFloat.val (am.mBitangents v).x,
           GFloat.val (am.mBitangents v).z, GFloat.val (am.mBitangents v).y])
    ∧ (am.hasTextureCoords0 = true →
      process_assimp_vertex_attrib settings am v .texcoord
        = [GFloat.val (am.mTextureCoords0 v).x, GFloat.val (am.mTextureCoords0 v).y])
    ∧ process_assimp_vertex_attrib settings am v .bones_indices
        = List.replicate settings.max_influencial_bones.toNat (GFloat.punned (-1))
    ∧ process_assimp_vertex_attrib settings am v .bones_weights
        = List.replicate settings.max_influencial_bones.toNat (GFloat.val 0) := by
  refine ⟨?_, ?_, ?_, ?_, rfl, rfl⟩ <;>
    (intro h; simp [process_assimp_vertex_attrib, h])

/-- A sample mesh with every per-vertex attribute present, used to
instantiate hypotheses of proved theorems on concrete data. -/
def demoMeshFull : aiMesh :=
  { mNumVertices := 3
    hasPositions := true
    mVertices := fun _ => ⟨5, 6, 7⟩
    hasNormals := true
    mNormals := fun _ => ⟨8, 9, 10⟩
    hasTextureCoords0 := true
    mTextureCoords0 := fun _ => ⟨11, 12, 0⟩
    hasTangentsAndBitangents := true
    mTangents := fun _ => ⟨13, 14, 15⟩
    mBitangents := fun _ => ⟨16, 17, 18⟩
    mFaces := [⟨[0, 1, 2]⟩]
    mMaterialIndex := 0
    hasBones := false
    mBones := [] }

/-- Default load settings (interleave on, four bone slots, nothing forced). -/
def demoSettings : model_load_settings :=
  { interleave_attributes := true, max_influencial_bones := 4, force_attributes := [] }

/-- Witness for C5 on concrete data: at vertex 0 of `demoMeshFull` the
swapped and unswapped chunks come out as computed by the claim theorem. -/
theorem C5_axis_swap_witness :
    process_assimp_vertex_attrib demoSettings demoMeshFull 0 .position
        = [GFloat.val 5, GFloat.val 7, GFloat.val 6]
    ∧ process_assimp_vertex_attrib demoSettings demoMeshFull 0 .normal
        = [GFloat.val 8, GFloat.val 10, GFloat.val 9]
    ∧ process_assimp_vertex_attrib demoSettings demoMeshFull 0 .tangents_bitangents
        = [GFloat.val 13, GFloat.val 15, GFloat.val 14,
           GFloat.val 16, GFloat.val 18, GFloat.val 17]
    ∧ process_assimp_vertex_attrib demoSettings demoMeshFull 0 .texcoord
        = [GFloat.val 11, GFloat.val 12] := by
  have h := C5_axis_swap demoSettings demoMeshFull 0
  refine ⟨?_, ?_, ?_, ?_⟩
  · rw [h.1 rfl]; exact rfl
  · rw [h.2.1 rfl]; exact rfl
  · rw [h.2.2.1 rfl]; exact rfl
  · rw [h.2.2.2.1 rfl]; exact rfl

/-- Claim C10: every successful `load_image` call reports
`pixel_data_size = width * height * color_channels * sizeof(float)`, i.e.
four bytes per channel, although the decoder delivered one byte per
channel. -/
theorem C10_pixel_data_size (d : stbi_data) :
    (load_image (some d)).1 = true
    ∧ (load_image (some d)).2.pixel_data_size
        = (load_image (some d)).2.width * (load_image (some d)).2.height *
          (load_image (some d)).2.color_channels * 4 := by
  constructor <;> rfl

/-- Claim C8: `load_image` fails exactly when the decoder yields no data
and `load_model` fails exactly when the scene is null, flagged incomplete
or missing a root node; every failure carries the default-constructed
empty payload.  (Both embedded functions are total, so no exception can
escape.) -/
theorem C8_failure_reporting (d : Option stbi_data) (imported : Option aiScene)
    (settings : model_load_settings) :
    ((load_image d).1 = false ↔ d = none)
    ∧ ((load_image d).1 = false → (load_image d).2 = emptyImage)
    ∧ ((load_model imported settings).1 = false ↔
        (imported = none ∨ ∃ scene, imported = some scene ∧
          (scene.mFlags &&& AI_SCENE_FLAGS_INCOMPLETE ≠ 0 ∨ scene.mRootNode = none)))
    ∧ ((load_model imported settings).1 = false →
        (load_model imported settings).2 = emptyModel) := by
  refine ⟨?_, ?_, ?_, ?_⟩
  · cases d <;> simp [load_image]
  · cases d <;> simp [load_image]
  · cases imported with
    | none => simp [load_model]
    | some scene =>
      by_cases hf : scene.mFlags &&& AI_SCENE_FLAGS_INCOMPLETE ≠ 0
      · simp [load_model, hf]
      · cases hr : scene.mRootNode <;> simp [load_model, hf, hr]
  · cases imported with
    | none => intro _; rfl
    | some scene =>
      by_cases hf : scene.mFlags &&& AI_SCENE_FLAGS_INCOMPLETE ≠ 0
      · intro _; simp [load_model, hf]
      · cases hr : scene.mRootNode <;> simp [load_model, hf, hr]

/-- Witness for C8 on concrete data: the null decoder result and the
null scene each yield the failure flag and the empty payload. -/
theorem C8_failure_reporting_witness :
    ((load_image none).1 = false ↔ (none : Option stbi_data) = none)
    ∧ (load_image none).2 = emptyImage
    ∧ (load_model none demoSettings).2 = emptyModel := by
  have h := C8_failure_reporting none none demoSettings
  exact ⟨h.1, h.2.1 rfl, h.2.2.2 rfl⟩

/-- Claim C1: after vertex emission every stream has exactly the promised
length — interleaved: one stream of `vertex_count * (sum of element
counts)`; non-interleaved: one stream per attribute of `vertex_count *
element_count`.  With a nonnegative bone budget (last conjunct) the
`toNat` element counts coincide with the source's `int` counts. -/
theorem C1_stream_lengths (settings : model_load_settings) (am : aiMesh)
    (hm : 0 ≤ settings.max_influencial_bones) :
    (settings.interleave_attributes = true →
      ∃ s, (process_assimp_mesh settings am).vertices = [s]
        ∧ s.length = am.mNumVertices *
            ((model_attribs settings am).map
              (fun a => (elements_per_attrib settings a).toNat)).sum)
    ∧ (settings.interleave_attributes = false →
      (process_assimp_mesh settings am).vertices
          = (model_attribs settings am).map (fun a => attrib_stream settings am a)
        ∧ ∀ a ∈ model_attribs settings am,
            (attrib_stream settings am a).length
              = am.mNumVertices * (elements_per_attrib settings a).toNat)
    ∧ (settings.max_influencial_bones.toNat : Int)
        = settings.max_influencial_bones := by
  refine ⟨?_, ?_, Int.toNat_of_nonneg hm⟩
  · intro hi
    refine ⟨emit_interleaved settings am (model_attribs settings am), ?_, ?_⟩
    · simp [process_assimp_mesh, hi]
    · exact emit_interleaved_length settings am _
  · intro hi
    constructor
    · simp only [process_assimp_mesh, hi, Bool.false_eq_true, if_false]
      apply List.map_congr_left
      intro a ha
      rw [emit_separate_eq settings am _ (model_attribs_nodup settings am) a, if_pos ha]
    · intro a _
      exact attrib_stream_length settings am a

/-- Witness for C1 on concrete data: `demoMeshFull` has all four
geometric attributes and 3 vertices, so the interleaved stream holds
`3 * (3 + 3 + 2 + 6) = 42` floats. -/
theorem C1_stream_lengths_witness :
    ∃ s, (process_assimp_mesh demoSettings demoMeshFull).vertices = [s]
      ∧ s.length = 42 := by
  obtain ⟨s, hs, hlen⟩ :=
    (C1_stream_lengths demoSettings demoMeshFull (by decide)).1 rfl
  exact ⟨s, hs, by rw [hlen]; rfl⟩

/-- A source mesh with one vertex and no attribute data at all. -/
def bareMesh1 : aiMesh :=
  { mNumVertices := 1
    hasPositions := false
    mVertices := fun _ => default
    hasNormals := false
    mNormals := fun _ => default
    hasTextureCoords0 := false
    mTextureCoords0 := fun _ => default
    hasTangentsAndBitangents := false
    mTangents := fun _ => default
    mBitangents := fun _ => default
    mFaces := []
    mMaterialIndex := 0
    hasBones := false
    mBones := [] }

/-- Settings forcing only the bone-index attribute, non-interleaved, one
bone slot. -/
def c2Settings : model_load_settings :=
  { interleave_attributes := false, max_influencial_bones := 1,
    force_attributes := [.bones_indices] }

/-- Counterexample to claim C2 as stated: forcing `bones_indices` on a
source without bones emits the no-bone sentinel (the bit pattern of the
integer -1 stored in place of a float), which is not a zero — so the
forced-attribute fallback is not "zeros of the attribute's element count"
for `bones_indices`. -/
theorem C2_counterexample :
    (process_assimp_mesh c2Settings bareMesh1).vertices = [[GFloat.punned (-1)]]
    ∧ GFloat.punned (-1) ≠ GFloat.val 0 := by
  exact ⟨rfl, by decide⟩

/-- The chunk `process_assimp_vertex_attrib` emits when the source mesh
lacks the attribute: zeros for the four geometric attributes, the no-bone
sentinel for bone indices, zeros for bone weights. -/
def fallback_chunk (settings : model_load_settings) : Attrib → List GFloat
  | .bones_indices =>
    List.replicate settings.max_influencial_bones.toNat (GFloat.punned (-1))
  | .bones_weights =>
    List.replicate settings.max_influencial_bones.toNat (GFloat.val 0)
  | a => List.replicate (push_zeros_count a) (GFloat.val 0)

/-- Claim C2 (amended): the emitted attribute set is the union of the
detected attributes and the forced ones, iterated in enum order; an
attribute outside the set contributes no stream and no interleaved field;
an attribute absent from the source is emitted for every vertex as its
fallback — zeros of its element count, except `bones_indices`, whose
fallback entries are the no-bone sentinel (the bit pattern of integer -1
stored as a float). -/
theorem C2_attribute_union_and_fallback (settings : model_load_settings) (am : aiMesh) :
    ((process_assimp_mesh settings am).attributes
        = attrOrder.filter
            (fun a => detected_attribs am a || decide (a ∈ settings.force_attributes)))
    ∧ (∀ a, a ∈ (process_assimp_mesh settings am).attributes
          ↔ (detected_attribs am a = true ∨ a ∈ settings.force_attributes))
    ∧ (settings.interleave_attributes = false →
        (process_assimp_mesh settings am).vertices
          = (process_assimp_mesh settings am).attributes.map
              (fun b => attrib_stream settings am b))
    ∧ (settings.interleave_attributes = true →
        (process_assimp_mesh settings am).vertices
          = [((List.range am.mNumVertices).map (fun v =>
              ((process_assimp_mesh settings am).attributes.map
                (fun a => process_assimp_vertex_attrib settings am v a)).join)).join])
    ∧ (∀ a v, detected_attribs am a = false →
        process_assimp_vertex_attrib settings am v a = fallback_chunk settings a) := by
  refine ⟨rfl, ?_, ?_, ?_, ?_⟩
  · intro a
    exact mem_model_attribs settings am a
  · intro hi
    simp only [process_assimp_mesh, hi, Bool.false_eq_true, if_false]
    apply List.map_congr_left
    intro a ha
    rw [emit_separate_eq settings am _ (model_attribs_nodup settings am) a, if_pos ha]
  · intro hi
    simp only [process_assimp_mesh, hi, if_true]
    rw [emit_interleaved_eq]
  · intro a v h
    cases a <;> simp only [detected_attribs] at h <;>
      simp [process_assimp_vertex_attrib, fallback_chunk, push_zeros_count, h]

/-- Settings forcing texcoord and bone weights on a bare source mesh,
non-interleaved. -/
def c2wSettings : model_load_settings :=
  { interleave_attributes := false, max_influencial_bones := 2,
    force_attributes := [.texcoord, .bones_weights] }

/-- Witness for the amended C2 on concrete data: on a bare one-vertex
mesh with texcoord and bone weights forced, the attribute set is exactly
those two, a non-forced absent attribute is not a member, the streams are
the per-attribute streams of the members, and the forced texcoord chunk
is its two-zero fallback. -/
theorem C2_attribute_union_and_fallback_witness :
    (process_assimp_mesh c2wSettings bareMesh1).attributes = [.texcoord, .bones_weights]
    ∧ Attrib.position ∉ (process_assimp_mesh c2wSettings bareMesh1).attributes
    ∧ (process_assimp_mesh c2wSettings bareMesh1).vertices
        = (process_assimp_mesh c2wSettings bareMesh1).attributes.map
            (fun b => attrib_stream c2wSettings bareMesh1 b)
    ∧ process_assimp_vertex_attrib c2wSettings bareMesh1 0 .texcoord
        = fallback_chunk c2wSettings .texcoord := by
  have h := C2_attribute_union_and_fallback c2wSettings bareMesh1
  refine ⟨?_, ?_, h.2.2.1 rfl, h.2.2.2.2 Attrib.texcoord 0 rfl⟩
  · rw [h.1]; rfl
  · intro hmem
    have hx := (h.2.1 Attrib.position).mp hmem
    revert hx
    decide

/-- Interleaving settings with nothing forced. -/
def c9Settings : model_load_settings :=
  { interleave_attributes := true, max_influencial_bones := 4, force_attributes := [] }

/-- Counterexample to claim C9 as stated: a mesh whose resolved attribute
set is empty still gets one (empty) vertex stream in interleaved mode,
because the interleaved stream is pushed unconditionally — so the stream
count is 1, not 0. -/
theorem C9_counterexample :
    model_attribs c9Settings bareMesh1 = []
    ∧ (process_assimp_mesh c9Settings bareMesh1).vertices = [[]]
    ∧ (process_assimp_mesh c9Settings bareMesh1).vertices.length = 1 := by
  exact ⟨rfl, rfl, rfl⟩

/-- Claim C9 (amended): a mesh with an empty resolved attribute set gets
zero vertex streams in non-interleaved mode, and exactly one stream —
which is empty — in interleaved mode. -/
theorem C9_empty_attribute_set (settings : model_load_settings) (am : aiMesh)
    (h : model_attribs settings am = []) :
    (settings.interleave_attributes = false →
      (process_assimp_mesh settings am).vertices = [])
    ∧ (settings.interleave_attributes = true →
      (process_assimp_mesh settings am).vertices = [[]]) := by
  constructor
  · intro hi
    simp [process_assimp_mesh, hi, h]
  · intro hi
    simp [process_assimp_mesh, hi, h, emit_interleaved_eq]

/-- Non-interleaving settings with nothing forced. -/
def c9nSettings : model_load_settings :=
  { interleave_attributes := false, max_influencial_bones := 4, force_attributes := [] }

/-- Witness for the amended C9 on concrete data: the bare mesh yields no
stream non-interleaved and one empty stream interleaved. -/
theorem C9_empty_attribute_set_witness :
    (process_assimp_mesh c9nSettings bareMesh1).vertices = []
    ∧ (process_assimp_mesh c9Settings bareMesh1).vertices = [[]] := by
  exact ⟨(C9_empty_attribute_set c9nSettings bareMesh1 rfl).1 rfl,
         (C9_empty_attribute_set c9Settings bareMesh1 rfl).2 rfl⟩

/-- The C6 scenario settings: non-interleaved, four bone slots, bone
indices and weights forced. -/
def c6Settings : model_load_settings :=
  { interleave_attributes := false, max_influencial_bones := 4,
    force_attributes := [.bones_indices, .bones_weights] }

/-- The C6 scenario mesh: two vertices carrying only positions. -/
def c6Mesh : aiMesh :=
  { bareMesh1 with
    mNumVertices := 2
    hasPositions := true
    mVertices := fun _ => ⟨1, 2, 3⟩ }

/-- Claim C6: a 2-vertex position-only mesh loaded non-interleaved with
`force_attributes` holding bones_indices and bones_weights and
`max_influencial_bones = 4` yields a bone-index stream of length 8 whose
every entry is the no-bone sentinel (the bit pattern of integer -1 stored
in place of a float) and a bone-weight stream of length 8 whose every
entry is 0 — parallel slots of 4 per vertex. -/
theorem C6_forced_bone_fallback :
    (process_assimp_mesh c6Settings c6Mesh).attributes
        = [.position, .bones_indices, .bones_weights]
    ∧ (process_assimp_mesh c6Settings c6Mesh).vertices
        = [[GFloat.val 1, GFloat.val 3, GFloat.val 2,
            GFloat.val 1, GFloat.val 3, GFloat.val 2],
           List.replicate 8 (GFloat.punned (-1)),
           List.replicate 8 (GFloat.val 0)]
    ∧ (List.replicate 8 (GFloat.punned (-1))).length = 2 * 4 := by
  exact ⟨rfl, rfl, rfl⟩

/-- Folding mesh processing over a node's mesh index list never touches
the model's bones map: the bone-insertion code is commented out in the
source, so `process_assimp_mesh` only appends to `meshes`. -/
theorem foldl_meshes_bones (settings : model_load_settings) (scene : aiScene) :
    ∀ (ms : List Nat) (out : model),
      (ms.foldl
        (fun out i =>
          { out with
            meshes := out.meshes
              ++ [process_assimp_mesh settings (scene.mMeshes.getD i default)] })
        out).bones = out.bones := by
  intro ms
  induction ms with
  | nil => intro out; rfl
  | cons i is ih => intro out; rw [List.foldl_cons, ih]

mutual

/-- Depth-first node processing leaves the bones map unchanged. -/
theorem process_assimp_node_bones (settings : model_load_settings) (scene : aiScene) :
    ∀ (node : aiNode) (out : model),
      (process_assimp_node settings scene node out).bones = out.bones
  | .mk ms children, out => by
    simp only [process_assimp_node]
    rw [process_assimp_children_bones settings scene children _]
    exact foldl_meshes_bones settings scene ms out

/-- The child loop leaves the bones map unchanged. -/
theorem process_assimp_children_bones (settings : model_load_settings) (scene : aiScene) :
    ∀ (cs : List aiNode) (out : model),
      (process_assimp_children settings scene cs out).bones = out.bones
  | [], out => by simp only [process_assimp_children]
  | c :: cs, out => by
    simp only [process_assimp_children]
    rw [process_assimp_children_bones settings scene cs _]
    exact process_assimp_node_bones settings scene c out

end

/-- Claim C3 (code defect): `load_model` never inserts any bone — for
every import result and settings the returned model's bones map is empty,
because the bone-merge block is commented out in the source, so no bone
name is ever assigned an id or an offset transform. -/
theorem C3_bones_map_stays_empty (imported : Option aiScene)
    (settings : model_load_settings) :
    (load_model imported settings).2.bones = [] := by
  cases imported with
  | none => rfl
  | some scene =>
    by_cases hf : scene.mFlags &&& AI_SCENE_FLAGS_INCOMPLETE ≠ 0
    · simp [load_model, hf, emptyModel]
    · cases hr : scene.mRootNode with
      | none => simp [load_model, hf, hr, emptyModel]
      | some root =>
        have hstep : (load_model (some scene) settings).2
            = process_assimp_node settings scene root emptyModel := by
          simp [load_model, hf, hr]
        rw [hstep, process_assimp_node_bones]
        rfl

/-- The C4 failing-input mesh: two position-only vertices plus one bone
"A" carrying weight pairs for both vertices. -/
def c4Mesh : aiMesh :=
  { c6Mesh with
    hasBones := true
    mBones := [⟨"A", List.replicate 16 0, [⟨0, 1/2⟩, ⟨1, 1/2⟩]⟩] }

/-- Non-interleaved settings with four bone slots and nothing forced. -/
def c4Settings : model_load_settings :=
  { interleave_attributes := false, max_influencial_bones := 4,
    force_attributes := [] }

/-- Claim C4 (code defect): no bone influence pair is ever written into a
vertex slot.  For every mesh and settings the bone-index stream stays
entirely the no-bone sentinel and the bone-weight stream entirely zero;
in particular on `c4Mesh`, whose bone carries two weight pairs, the
processed streams are still all-sentinel and all-zero — the pairs that
the claim says land in the first free slots are not written at all (the
merge code is commented out in the source). -/
theorem C4_bone_influences_never_written (settings : model_load_settings)
    (am : aiMesh) :
    attrib_stream settings am .bones_indices
        = List.replicate (am.mNumVertices * settings.max_influencial_bones.toNat)
            (GFloat.punned (-1))
    ∧ attrib_stream settings am .bones_weights
        = List.replicate (am.mNumVertices * settings.max_influencial_bones.toNat)
            (GFloat.val 0)
    ∧ (process_assimp_mesh c4Settings c4Mesh).vertices
        = [[GFloat.val 1, GFloat.val 3, GFloat.val 2,
            GFloat.val 1, GFloat.val 3, GFloat.val 2],
           List.replicate 8 (GFloat.punned (-1)),
           List.replicate 8 (GFloat.val 0)] := by
  refine ⟨?_, ?_, rfl⟩
  · unfold attrib_stream
    rw [show (fun v => process_assimp_vertex_attrib settings am v Attrib.bones_indices)
          = fun _ : Nat =>
              List.replicate settings.max_influencial_bones.toNat (GFloat.punned (-1))
        from rfl]
    rw [join_map_const_replicate]
    simp
  · unfold attrib_stream
    rw [show (fun v => process_assimp_vertex_attrib settings am v Attrib.bones_weights)
          = fun _ : Nat =>
              List.replicate settings.max_influencial_bones.toNat (GFloat.val 0)
        from rfl]
    rw [join_map_const_replicate]
    simp
